import Mathlib

/-!
Shallow embedding of the conversational-portfolio CDUI runtime
(screen model and mutation engine, intent classifier, command dispatcher,
session store, loop scheduler, realtime voice client) together with
theorems settling the specification claims against it.

All definitions are translated from the TypeScript sources
(types.ts, mutate.ts, intent.ts, ai.ts, screens.ts, projects.ts,
session.ts, brainClient.ts, App.tsx, voice/realtimeVoice.ts).
-/

namespace CDUI

/-! ## JavaScript string primitives

The source relies on String.prototype.toLowerCase, trim and includes.
We model them over the underlying character list.  Char.toLower covers the
ASCII range, which is the range exercised by the keyword tables and claims. -/

def jsToLower (s : String) : String :=
  ⟨s.data.map Char.toLower⟩

def trimCharList (l : List Char) : List Char :=
  ((l.dropWhile Char.isWhitespace).reverse.dropWhile Char.isWhitespace).reverse

def jsTrim (s : String) : String :=
  ⟨trimCharList s.data⟩

/-- Model of JavaScript substring containment: does `sub` occur contiguously
inside `l`? -/
def charListHasInfix (sub : List Char) : List Char → Bool
  | [] => sub.isEmpty
  | c :: rest => sub.isPrefixOf (c :: rest) || charListHasInfix sub rest

/-- Model of `s.includes(sub)` from JavaScript. -/
def strIncludes (s sub : String) : Bool :=
  charListHasInfix sub.data s.data

/-! ## Data model (src/cdui/types.ts, full widget set including skill_matrix) -/

structure TimelineEntry where
  id : String
  title : String
  subtitle : Option String
  period : String
  description : Option String
deriving DecidableEq

structure SkillMatrixRow where
  area : String
  skills : List String
  level : Option String
deriving DecidableEq

structure Button where
  id : String
  label : String
deriving DecidableEq

structure ProjectSummary where
  id : String
  name : String
  techStack : List String
deriving DecidableEq

inductive TextVariant
  | h1
  | body
deriving DecidableEq

inductive Widget
  | text (variant : TextVariant) (content : String)
  | project_list (projects : List ProjectSummary)
  | button_row (buttons : List Button)
  | info_card (title : String) (body : String)
  | tag_list (label : Option String) (tags : List String)
  | timeline (title : String) (entries : List TimelineEntry)
  | skill_matrix (title : String) (rows : List SkillMatrixRow)
deriving DecidableEq

inductive Layout
  | column
  | row
deriving DecidableEq

structure ScreenDescription where
  screenId : String
  layout : Layout
  widgets : List Widget
deriving DecidableEq

/-- Screen mutations.  The TypeScript `kind` discriminator is open at runtime
(the brain service sends JSON), so an extra constructor models every mutation
whose kind is not one of the handled variants; `applyMutation` sends it to the
default branch exactly as the TypeScript switch does. -/
inductive ScreenMutation
  | ADD_TAG (tag : String)
  | REMOVE_TAG (tag : String)
  | ADD_SKILL (area : String) (skill : String)
  | CHANGE_LEVEL (area : String) (level : String)
  | ADD_TIMELINE_ENTRY (entry : TimelineEntry)
  | FILTER_PROJECTS (tech : String)
  | unknownKind (kind : String)
deriving DecidableEq

/-! ## Mutation engine (src/cdui/mutate.ts, full version) -/

def addTagWidget (tag : String) (w : Widget) : Widget :=
  match w with
  | .tag_list label tags =>
      .tag_list label (if tags.contains tag then tags else tags ++ [tag])
  | w => w

def addTag (screen : ScreenDescription) (tag : String) : ScreenDescription :=
  { screen with widgets := screen.widgets.map (addTagWidget tag) }

def removeTagWidget (tag : String) (w : Widget) : Widget :=
  match w with
  | .tag_list label tags =>
      .tag_list label (tags.filter fun t => !(jsToLower t == jsToLower tag))
  | w => w

def removeTag (screen : ScreenDescription) (tag : String) : ScreenDescription :=
  { screen with widgets := screen.widgets.map (removeTagWidget tag) }

def addSkill (screen : ScreenDescription) (area skill : String) : ScreenDescription :=
  let areaLower := jsToLower area
  { screen with
    widgets := screen.widgets.map fun w =>
      match w with
      | .skill_matrix title rows =>
          .skill_matrix title (rows.map fun row =>
            let rowMatches :=
              (jsToLower row.area == areaLower) ||
                strIncludes (jsToLower row.area) areaLower
            if !rowMatches then row
            else if row.skills.contains skill then row
            else { row with skills := row.skills ++ [skill] })
      | w => w }

def changeLevel (screen : ScreenDescription) (area level : String) : ScreenDescription :=
  let areaLower := jsToLower area
  { screen with
    widgets := screen.widgets.map fun w =>
      match w with
      | .skill_matrix title rows =>
          .skill_matrix title (rows.map fun row =>
            let rowMatches :=
              (jsToLower row.area == areaLower) ||
                strIncludes (jsToLower row.area) areaLower
            if !rowMatches then row
            else { row with level := some level })
      | w => w }

def addTimelineEntry (screen : ScreenDescription) (entry : TimelineEntry) :
    ScreenDescription :=
  { screen with
    widgets := screen.widgets.map fun w =>
      match w with
      | .timeline title entries => .timeline title (entries ++ [entry])
      | w => w }

def filterProjects (screen : ScreenDescription) (tech : String) : ScreenDescription :=
  let techLower := jsToLower tech
  { screen with
    widgets := screen.widgets.map fun w =>
      match w with
      | .project_list projects =>
          .project_list (projects.filter fun proj =>
            proj.techStack.any fun t => strIncludes (jsToLower t) techLower)
      | w => w }

def applyMutation (screen : ScreenDescription) (mutation : ScreenMutation) :
    ScreenDescription :=
  match mutation with
  | .ADD_TAG tag => addTag screen tag
  | .REMOVE_TAG tag => removeTag screen tag
  | .ADD_SKILL area skill => addSkill screen area skill
  | .CHANGE_LEVEL area level => changeLevel screen area level
  | .ADD_TIMELINE_ENTRY entry => addTimelineEntry screen entry
  | .FILTER_PROJECTS tech => filterProjects screen tech
  | .unknownKind _ => screen

/-- The tag sequences carried by the tag_list widgets of a screen, in order. -/
def tagLists (screen : ScreenDescription) : List (List String) :=
  screen.widgets.filterMap fun w =>
    match w with
    | .tag_list _ tags => some tags
    | _ => none

/-! ## Intent classifier (src/cdui/intent.ts) -/

inductive Intent
  | SHOW_PROJECTS (tech : Option String)
  | SHOW_CV
  | SHOW_ANY_PROJECTS
  | GO_BACK
  | LOOP_TIMELINE
  | SHOW_LANGUAGE_SELECTION
  | SET_LANGUAGE_EN
  | SET_LANGUAGE_DE
  | UNKNOWN (reason : Option String)
deriving DecidableEq

def hasAny (text : String) (candidates : List String) : Bool :=
  candidates.any fun word => strIncludes text word

/-- Normalisation applied at the top of parseIntent:
`input.toLowerCase().trim()`. -/
def normText (input : String) : String :=
  jsTrim (jsToLower input)

def isLangSelText (text : String) : Bool :=
  hasAny text
    ["language", "language selection", "choose language", "select language",
     "sprache", "sprachwahl", "sprache auswählen", "sprache waehlen"]

def isSetEnText (text : String) : Bool :=
  text == "english" || text == "set english" || strIncludes text "switch to english"

def isSetDeText (text : String) : Bool :=
  text == "deutsch" || text == "german" || text == "auf deutsch" ||
    strIncludes text "switch to german" || strIncludes text "auf deutsch umstellen"

def isCvText (text : String) : Bool :=
  hasAny text ["cv", "curriculum", "lebenslauf", "resume"]

def isLoopText (text : String) : Bool :=
  hasAny text
    ["loop through", "go through all", "go through them all",
     "show and explain all one by one", "step through", "step through them",
     "walk me through", "walk through the timeline", "loop the timeline"]

def isGoBackText (text : String) : Bool :=
  text == "back" || text == "go back" ||
    hasAny text ["go back", "zurück"] ||
    (hasAny text ["back", "zurück"] && hasAny text ["screen", "view"]) ||
    hasAny text ["previous screen", "prev screen"]

def detectTech (text : String) : Option String :=
  if hasAny text ["java"] then some "java"
  else if hasAny text ["backend", "server", "api"] then some "backend"
  else if hasAny text ["firebase", "fire base"] then some "firebase"
  else none

def mentionsProjectsText (text : String) : Bool :=
  hasAny text ["project", "projects", "work", "examples"]

def soundsLikeShowText (text : String) : Bool :=
  hasAny text ["show", "see", "only", "filter", "zeige", "nur", "filtern"]

def isSomethingElseText (text : String) : Bool :=
  hasAny text
    ["something else", "anything else", "more projects", "more work",
     "show more", "next", "next project", "next portfolio item",
     "etwas anderes", "mehr projekte", "nächstes"]

def parseIntent (input : String) : Intent :=
  let text := normText input
  if text == "" then .UNKNOWN (some "empty")
  else if isLangSelText text then .SHOW_LANGUAGE_SELECTION
  else if isSetEnText text then .SET_LANGUAGE_EN
  else if isSetDeText text then .SET_LANGUAGE_DE
  else if isCvText text then .SHOW_CV
  else if isLoopText text then .LOOP_TIMELINE
  else if isGoBackText text then .GO_BACK
  else
    let tech := detectTech text
    if mentionsProjectsText text || (soundsLikeShowText text && tech.isSome) then
      .SHOW_PROJECTS tech
    else if isSomethingElseText text then .SHOW_ANY_PROJECTS
    else .UNKNOWN (some "no match")

/-! ## Project registry (src/cdui/projects.ts) -/

inductive ProjectKind
  | frontend
  | backend
  | fullstack
  | cli
deriving DecidableEq

structure Project where
  id : String
  name : String
  kind : ProjectKind
  techStack : List String
  shortDescription : String
deriving DecidableEq

def allProjects : List Project :=
  [ { id := "java-vocab-trainer"
      name := "Java Vocab Trainer"
      kind := .cli
      techStack := ["Java", "OOP"]
      shortDescription :=
        "Console-based vocabulary trainer built in Java with OOP concepts." },
    { id := "easytagsy"
      name := "EasyTagsy"
      kind := .fullstack
      techStack := ["React", "TypeScript", "Firebase", "Stripe", "OpenAI"]
      shortDescription :=
        "SaaS tool for Etsy sellers with React frontend and Firebase backend." },
    { id := "cdui-portfolio"
      name := "CDUI Conversational Portfolio"
      kind := .frontend
      techStack := ["React", "TypeScript", "Vite"]
      shortDescription :=
        "This experimental portfolio itself, showcasing the Conversational Driven UI concept." } ]

def projectListFromProjects (projects : List Project) : Widget :=
  .project_list (projects.map fun p =>
    { id := p.id, name := p.name, techStack := p.techStack })

/-! ## Static screens (src/cdui/screens.ts) -/

def homeScreen : ScreenDescription :=
  { screenId := "home"
    layout := .column
    widgets :=
      [ .text .h1 "Welcome to the Conversational Portfolio (CDUI demo)",
        projectListFromProjects allProjects,
        .info_card "Interface driven by conversation"
          "This portfolio is not a static page. It is a runtime that compiles natural language into structured UI. You can ask for specific projects, switch views, or later even talk to a digital avatar that explains the work.",
        .tag_list (some "Technologies behind this interface")
          ["React", "TypeScript", "Vite", "CDUI runtime"],
        .skill_matrix "Skill matrix snapshot"
          [ { area := "Frontend"
              skills := ["React", "TypeScript", "HTML", "CSS"]
              level := some "solid foundation" },
            { area := "Backend / Fullstack"
              skills := ["Firebase", "REST APIs", "Auth", "Stripe basics"]
              level := some "growing experience" },
            { area := "Programming languages"
              skills := ["Java", "C#", "Python (basics)"]
              level := some "active learning" },
            { area := "Tooling"
              skills := ["Git", "GitHub", "VS Code", "Node.js"]
              level := some "daily use" } ],
        .button_row [{ id := "talk_to_interface", label := "Talk to the interface" }] ] }

def javaScreen : ScreenDescription :=
  { screenId := "java_projects"
    layout := .column
    widgets :=
      [ .text .h1 "Java-focused projects",
        projectListFromProjects
          (allProjects.filter fun p => p.techStack.contains "Java"),
        .info_card "Why Java matters here"
          "Java is where the first console tools and OOP practice started. This view highlights Java-heavy work that shows understanding of classes, methods, and basic tooling.",
        .tag_list (some "Java-related technologies") ["Java", "OOP", "CLI tools"],
        .button_row [{ id := "talk_to_interface", label := "Ask for something else" }] ] }

def backendScreen : ScreenDescription :=
  { screenId := "backend_projects"
    layout := .column
    widgets :=
      [ .text .h1 "Backend-oriented projects",
        projectListFromProjects
          (allProjects.filter fun p =>
            p.kind == .backend || p.kind == .fullstack || p.kind == .cli),
        .info_card "Backend and infrastructure focus"
          "These projects touch APIs, authentication, data handling and deployment concerns. Even when the UI is React, the interesting part here is how data flows and how external services are integrated.",
        .tag_list (some "Backend-related technologies")
          ["Firebase", "Stripe", "Auth", "APIs", "Fullstack thinking"],
        .button_row [{ id := "talk_to_interface", label := "Refine the view" }] ] }

def cvScreen : ScreenDescription :=
  { screenId := "cv_download"
    layout := .column
    widgets :=
      [ .text .h1 "CV download",
        .text .body
          "In a later version, a real CV PDF will be generated here on demand.",
        .timeline "Education & training timeline"
          [ { id := "wbs-ausbildung"
              title := "Umschulung – Fachinformatiker Anwendungsentwicklung"
              subtitle := some "WBS Training (Germany)"
              period := "2024 – 2026 (in progress)"
              description := some
                "Career change into software development, focusing on programming, databases and software engineering fundamentals." },
            { id := "bth-web"
              title := "Webbprogrammering studies"
              subtitle := some "Blekinge Tekniska Högskola (Sweden)"
              period := "2024 – (in progress)"
              description := some
                "Higher education in web technologies, including Python, C#, JavaScript and modern web architecture." },
            { id := "pre-it"
              title := "Previous professional experience"
              subtitle := none
              period := "Before 2024"
              description := some
                "Background outside of IT that shapes soft skills, resilience and problem-solving – details will be in the full CV." } ],
        .tag_list (some "Core skill areas highlighted in this CV")
          ["Java", "C#", "React", "TypeScript", "SQL", "Backend basics"],
        .button_row
          [ { id := "download_cv", label := "Download CV (mock)" },
            { id := "talk_to_interface", label := "Ask something else" } ] ] }

/-! ## Local rule engine (src/cdui/ai.ts) -/

inductive AIResult
  | push (screen : ScreenDescription) (systemPrompt : Option String)
  | noop (systemPrompt : String)
deriving DecidableEq

def unknownHelpMsg : String :=
  "I\x27m not sure what you mean. Try phrases like \x27java projects\x27, \x27backend projects\x27, \x27firebase projects\x27, \x27cv\x27, or \x27go back\x27."

def decideFromText (text : String) (_history : List ScreenDescription) : AIResult :=
  match parseIntent text with
  | .SHOW_CV =>
      .push cvScreen (some "CV section opened. You can request other views anytime.")
  | .SHOW_PROJECTS tech =>
      let nextScreen :=
        if tech == some "java" then javaScreen
        else if tech == some "backend" || tech == some "firebase" then backendScreen
        else homeScreen
      .push nextScreen (some "View updated. You can refine it again.")
  | .SHOW_ANY_PROJECTS =>
      .push backendScreen (some "Here is another example from the portfolio.")
  | _ => .noop unknownHelpMsg

/-! ## Session store (src/cdui/session.ts, language-aware version)

localStorage is modelled explicitly: `none` is an absent blob, `some none`
an unparsable blob (JSON.parse throws), `some (some st)` a parsed blob whose
fields may individually be absent or of the wrong runtime type (each such
field is an Option).  Date.now() is passed in as `now`. -/

inductive UILanguage
  | en
  | de
deriving DecidableEq

structure SessionContext where
  visits : Int
  lastVisit : Int
  screensViewed : List (String × Int)
  lastFocus : Option String
  personaHints : List String
  voiceEnabled : Bool
  uiLanguage : UILanguage
  showLanguagePicker : Bool
deriving DecidableEq

structure StoredSession where
  visits : Option Int
  screensViewed : Option (List (String × Int))
  lastFocus : Option (Option String)
  personaHints : Option (List String)
  voiceEnabled : Option Bool
  uiLanguage : Option String
  showLanguagePicker : Option Bool
deriving DecidableEq

def SessionStorage := Option (Option StoredSession)

def langString : UILanguage → String
  | .en => "en"
  | .de => "de"

/-- JSON.stringify of a full in-memory context: every field is present. -/
def storedOf (ctx : SessionContext) : StoredSession :=
  { visits := some ctx.visits
    screensViewed := some ctx.screensViewed
    lastFocus := some ctx.lastFocus
    personaHints := some ctx.personaHints
    voiceEnabled := some ctx.voiceEnabled
    uiLanguage := some (langString ctx.uiLanguage)
    showLanguagePicker := some ctx.showLanguagePicker }

def saveSession (ctx : SessionContext) : SessionStorage :=
  some (some (storedOf ctx))

def freshSession (now : Int) : SessionContext :=
  { visits := 1
    lastVisit := now
    screensViewed := []
    lastFocus := none
    personaHints := []
    voiceEnabled := false
    uiLanguage := .en
    showLanguagePicker := false }

def loadSession (now : Int) (store : SessionStorage) :
    SessionContext × SessionStorage :=
  match store with
  | none =>
      let initial := freshSession now
      (initial, saveSession initial)
  | some none =>
      let fallback := freshSession now
      (fallback, saveSession fallback)
  | some (some stored) =>
      let normalized : SessionContext :=
        { visits :=
            match stored.visits with
            | some v => if 0 ≤ v then v + 1 else 1
            | none => 1
          lastVisit := now
          screensViewed := stored.screensViewed.getD []
          lastFocus := stored.lastFocus.getD none
          personaHints := stored.personaHints.getD []
          voiceEnabled := stored.voiceEnabled.getD false
          uiLanguage := if stored.uiLanguage == some "de" then .de else .en
          showLanguagePicker := stored.showLanguagePicker.getD false }
      (normalized, saveSession normalized)

def setUILanguage (ctx : SessionContext) (lang : UILanguage) (now : Int) :
    SessionContext :=
  { ctx with uiLanguage := lang, lastVisit := now }

def showLanguageSelection (ctx : SessionContext) (shown : Bool) (now : Int) :
    SessionContext :=
  { ctx with showLanguagePicker := shown, lastVisit := now }

/-! ## Compiler client (src/cdui/brainClient.ts)

The network outcome of the POST to /api/brain is a parameter; the client
returns null on a network error or a non-2xx status, and normalises a 2xx
body whose mutations field is not an array to an empty mutations list. -/

structure BrainResponse where
  mutations : List ScreenMutation
  systemPrompt : String
deriving DecidableEq

/-- A parsed 2xx JSON body; a field is `none` when it is absent or not of the
expected runtime type. -/
structure BrainBody where
  mutations : Option (List ScreenMutation)
  systemPrompt : Option String
deriving DecidableEq

inductive BrainOutcome
  | networkError
  | httpError (status : Nat)
  | ok (body : BrainBody)
deriving DecidableEq

def callBrain (outcome : BrainOutcome) : Option BrainResponse :=
  match outcome with
  | .networkError => none
  | .httpError _ => none
  | .ok body =>
      some { mutations := body.mutations.getD []
             systemPrompt := body.systemPrompt.getD "Interface updated by AI." }

/-! ## Narration client result (src/cdui/avatarClient.ts, fields read by App) -/

structure AvatarResponse where
  narration : String
  focusTarget : Option String
deriving DecidableEq

/-! ## Command dispatcher (src/App.tsx, voice-aware version)

handleCommand is embedded as a pure transition: the outcomes of the two
external services are oracle parameters, and the calls the dispatcher issues
to the outside world are collected in an ExtCall list. -/

inductive InteractionMode
  | chooser
  | text
  | voice
deriving DecidableEq

structure LoopMode where
  ids : List String
  index : Nat
deriving DecidableEq

structure AppState where
  history : List ScreenDescription
  chatInput : String
  systemPrompt : String
  avatarNarration : Option String
  avatarThinking : Bool
  focusTarget : Option String
  loopMode : Option LoopMode
  mode : InteractionMode
  hasActivatedUI : Bool
  voiceConnected : Bool
  assistantSpeaking : Bool
  session : SessionContext
deriving DecidableEq

inductive ExtCall
  | cancelVoice
  | brainCall (text : String)
  | avatarCall (text : String)
deriving DecidableEq

def initialHistory : List ScreenDescription :=
  [homeScreen]

def initialAppState (session : SessionContext) : AppState :=
  { history := initialHistory
    chatInput := ""
    systemPrompt :=
      "You are not browsing pages. You are shaping the interface. What do you want to see?"
    avatarNarration := none
    avatarThinking := false
    focusTarget := none
    loopMode := none
    mode := .chooser
    hasActivatedUI := false
    voiceConnected := false
    assistantSpeaking := false
    session := session }

def currentScreenOf (st : AppState) : ScreenDescription :=
  st.history.getLastD homeScreen

def isStopPhrase (s : String) : Bool :=
  let t := jsToLower (jsTrim s)
  t == "stop" || t == "cancel" || t == "halt" || t == "be quiet" ||
    t == "shut up" || t == "silence"

/-- Applying an avatar response in a branch that reads only the narration:
JS truthiness makes an empty narration a no-op. -/
def applyAvatarNarration (avatar : Option AvatarResponse) (st : AppState) :
    AppState × Option String :=
  match avatar with
  | none => (st, none)
  | some a =>
      if a.narration == "" then (st, none)
      else ({ st with avatarNarration := some a.narration }, some a.narration)

/-- Applying an avatar response in a branch that also reads focusTarget. -/
def applyAvatarFull (avatar : Option AvatarResponse) (st : AppState) :
    AppState × Option String :=
  let (st, ret) := applyAvatarNarration avatar st
  match avatar with
  | none => (st, ret)
  | some a =>
      match a.focusTarget with
      | none => (st, ret)
      | some f =>
          if f == "" then (st, ret) else ({ st with focusTarget := some f }, ret)

/-- The local compiler path of the default branch: identical code is run in
dev mode and as the fallback when callBrain returns null. -/
def localCompilerPath (st : AppState) (trimmed : String) : AppState :=
  match decideFromText trimmed st.history with
  | .push screen sp =>
      let st := { st with history := st.history ++ [screen] }
      (match sp with
       | some p => if p == "" then st else { st with systemPrompt := p }
       | none => st)
  | .noop sp => { st with systemPrompt := sp }

/-- SHOW_PROJECTS / SHOW_ANY_PROJECTS branch of handleCommand. -/
def projectsBranch (avatar : Option AvatarResponse) (st : AppState)
    (trimmed : String) (calls : List ExtCall) :
    AppState × List ExtCall × Option String :=
  let st := { st with avatarThinking := true }
  let st :=
    match decideFromText trimmed st.history with
    | .push screen sp =>
        let st := { st with history := st.history ++ [screen] }
        (match sp with
         | some p => if p == "" then st else { st with systemPrompt := p }
         | none => st)
    | .noop sp => if sp == "" then st else { st with systemPrompt := sp }
  let st := { st with chatInput := "", focusTarget := none }
  let calls := calls ++ [ExtCall.avatarCall trimmed]
  let (st, ret) := applyAvatarFull avatar st
  ({ st with avatarThinking := false }, calls, ret)

/-- LOOP_TIMELINE branch when the current screen has no (non-empty) timeline. -/
def noTimelineBranch (avatar : Option AvatarResponse) (st : AppState)
    (trimmed : String) (calls : List ExtCall) :
    AppState × List ExtCall × Option String :=
  let st := { st with
    systemPrompt := "There is no timeline on this view to loop through."
    chatInput := ""
    focusTarget := none
    avatarThinking := true }
  let calls := calls ++ [ExtCall.avatarCall trimmed]
  let (st, ret) := applyAvatarNarration avatar st
  ({ st with avatarThinking := false }, calls, ret)

def loopExplainMsg : String :=
  "The user asked to go through the CV timeline entries one by one. Explain that the interface will highlight each entry in sequence and briefly describe them."

/-- LOOP_TIMELINE branch of handleCommand. -/
def loopTimelineBranch (avatar : Option AvatarResponse) (st : AppState)
    (trimmed : String) (calls : List ExtCall) :
    AppState × List ExtCall × Option String :=
  let current := currentScreenOf st
  let timelineWidget := current.widgets.find? fun w =>
    match w with
    | .timeline _ _ => true
    | _ => false
  match timelineWidget with
  | some (.timeline _ entries) =>
      if entries.isEmpty then noTimelineBranch avatar st trimmed calls
      else
        let ids := entries.map (·.id)
        let st := { st with
          loopMode := some { ids := ids, index := 0 }
          chatInput := ""
          avatarThinking := true }
        let calls := calls ++ [ExtCall.avatarCall loopExplainMsg]
        let (st, ret) := applyAvatarNarration avatar st
        ({ st with avatarThinking := false }, calls, ret)
  | _ => noTimelineBranch avatar st trimmed calls

/-- Default branch (UNKNOWN intent): remote compiler in prod with local
fallback, local rule engine in dev, then narration. -/
def defaultBranch (isProd : Bool) (brainOutcome : BrainOutcome)
    (avatar : Option AvatarResponse) (st : AppState) (trimmed : String)
    (calls : List ExtCall) : AppState × List ExtCall × Option String :=
  let st := { st with avatarThinking := true }
  let (st, calls) :=
    if !isProd then (localCompilerPath st trimmed, calls)
    else
      let calls := calls ++ [ExtCall.brainCall trimmed]
      match callBrain brainOutcome with
      | none => (localCompilerPath st trimmed, calls)
      | some brain =>
          let current := currentScreenOf st
          let nextScreen := brain.mutations.foldl applyMutation current
          -- the source guards the push with a JS reference comparison
          -- (nextScreen !== current); applyMutation always allocates, so the
          -- references differ exactly when at least one mutation was applied
          let st :=
            if brain.mutations.isEmpty then st
            else { st with history := st.history ++ [nextScreen] }
          let st :=
            if brain.systemPrompt == "" then st
            else { st with systemPrompt := brain.systemPrompt }
          (st, calls)
  let st := { st with chatInput := "" }
  let calls := calls ++ [ExtCall.avatarCall trimmed]
  let (st, ret) := applyAvatarFull avatar st
  ({ st with avatarThinking := false }, calls, ret)

def handleCommand (isProd : Bool) (brainOutcome : BrainOutcome)
    (avatar : Option AvatarResponse) (now : Int)
    (st : AppState) (text : String) : AppState × List ExtCall × Option String :=
  let trimmed := jsTrim text
  if trimmed == "" then (st, [], none)
  else
    let st := if st.hasActivatedUI then st else { st with hasActivatedUI := true }
    let (st, calls) :=
      if st.mode == .voice && st.voiceConnected && st.assistantSpeaking then
        ({ st with assistantSpeaking := false }, [ExtCall.cancelVoice])
      else (st, ([] : List ExtCall))
    if isStopPhrase trimmed then
      let st := { st with
        loopMode := none
        avatarThinking := false
        avatarNarration := none
        systemPrompt := "Stopped." }
      let (st, calls) :=
        if st.mode == .voice && st.voiceConnected then
          ({ st with assistantSpeaking := false }, calls ++ [ExtCall.cancelVoice])
        else (st, calls)
      (st, calls, none)
    else
      let st := { st with loopMode := none }
      match parseIntent trimmed with
      | .SHOW_LANGUAGE_SELECTION =>
          let msg :=
            if st.session.uiLanguage == .de then
              "Sprachauswahl geöffnet. Wähle Deutsch oder English."
            else "Language selection opened. Choose English or Deutsch."
          let st := { st with
            session := showLanguageSelection st.session true now
            systemPrompt := msg
            avatarNarration := some msg }
          (st, calls, some msg)
      | .SET_LANGUAGE_EN =>
          let msg := "Language set to English."
          let st := { st with
            session := setUILanguage (showLanguageSelection st.session false now) .en now
            systemPrompt := msg
            avatarNarration := some msg }
          (st, calls, some msg)
      | .SET_LANGUAGE_DE =>
          let msg := "Sprache auf Deutsch eingestellt."
          let st := { st with
            session := setUILanguage (showLanguageSelection st.session false now) .de now
            systemPrompt := msg
            avatarNarration := some msg }
          (st, calls, some msg)
      | .GO_BACK =>
          let prevHistory :=
            if st.history.length > 1 then st.history.dropLast else st.history
          let st := { st with
            history := prevHistory
            systemPrompt := "Went back to the previous view."
            chatInput := ""
            focusTarget := none
            avatarThinking := true }
          let calls := calls ++ [ExtCall.avatarCall trimmed]
          let (st, ret) := applyAvatarFull avatar st
          ({ st with avatarThinking := false }, calls, ret)
      | .SHOW_CV =>
          let nextScreen := cvScreen
          let st := { st with
            history := st.history ++ [nextScreen]
            systemPrompt := "Showing CV overview. You can ask for details."
            chatInput := ""
            focusTarget := none
            avatarThinking := true }
          let calls := calls ++ [ExtCall.avatarCall trimmed]
          let (st, ret) := applyAvatarFull avatar st
          ({ st with avatarThinking := false }, calls, ret)
      | .SHOW_PROJECTS _ => projectsBranch avatar st trimmed calls
      | .SHOW_ANY_PROJECTS => projectsBranch avatar st trimmed calls
      | .LOOP_TIMELINE => loopTimelineBranch avatar st trimmed calls
      | .UNKNOWN _ => defaultBranch isProd brainOutcome avatar st trimmed calls

/-! ## Loop scheduler (the loop useEffect in src/App.tsx)

The timer-driven walkthrough is embedded as a trace semantics.  The effect
body runs whenever loopMode changes; React first runs the cleanup of the
previous effect, which clears the pending timeout (a cleared timeout can
never fire) and sets the cancelled flag.  Each scheduled timeout gets a
fresh handle; a tick event carrying a handle other than the currently armed
one models a stale timeout and is a no-op (the functional setLoopMode update
in the callback returns the previous state when no timeline loop is active).
`narrated` records, in order, the entry ids for which the effect issued a
narration (callAvatar) request. -/

structure LoopSchedState where
  loopMode : Option LoopMode
  timer : Option Nat
  nextHandle : Nat
  narrated : List String
deriving DecidableEq

def initialLoopSched : LoopSchedState :=
  { loopMode := none, timer := none, nextHandle := 0, narrated := [] }

/-- One run of the useEffect after a loopMode change: cleanup of the previous
run has cleared the pending timeout; then the body either bails out, clears
an exhausted loop, or narrates the focused entry and arms a fresh timeout. -/
def runLoopEffect (s : LoopSchedState) : LoopSchedState :=
  let s := { s with timer := none }
  match s.loopMode with
  | none => s
  | some lm =>
      if lm.ids.isEmpty || lm.ids.length ≤ lm.index then { s with loopMode := none }
      else
        { s with
          narrated := s.narrated ++ [lm.ids.getD lm.index ""]
          timer := some s.nextHandle
          nextHandle := s.nextHandle + 1 }

inductive LoopEvent
  | startLoop (ids : List String)
  | newCommand
  | teardown
  | tick (handle : Nat)
deriving DecidableEq

def loopStep (s : LoopSchedState) : LoopEvent → LoopSchedState
  | .startLoop ids =>
      runLoopEffect { s with loopMode := some { ids := ids, index := 0 } }
  | .newCommand =>
      -- handleCommand executes setLoopMode(null); the effect cleanup then
      -- clears the pending advance timeout
      runLoopEffect { s with loopMode := none }
  | .teardown =>
      -- unmount runs only the cleanup; the timeout is cleared and the
      -- component state is discarded
      { s with timer := none, loopMode := none }
  | .tick h =>
      if s.timer == some h then
        let s := { s with timer := none }
        match s.loopMode with
        | none => s
        | some lm =>
            if lm.ids.length - 1 ≤ lm.index then
              runLoopEffect { s with loopMode := none }
            else
              runLoopEffect { s with loopMode := some { lm with index := lm.index + 1 } }
      else s

def runLoopEvents (s : LoopSchedState) (es : List LoopEvent) : LoopSchedState :=
  es.foldl loopStep s

/-! ## Realtime voice client (src/cdui/voice/realtimeVoice.ts) -/

inductive DCReadyState
  | connecting
  | opened
  | closed
deriving DecidableEq

inductive RealtimeVoiceStatus
  | idle
  | connecting
  | connected
  | error
deriving DecidableEq

structure VoiceClientState where
  pc : Bool
  dc : Option DCReadyState
  status : RealtimeVoiceStatus
  sent : List String
deriving DecidableEq

def initialVoiceClient : VoiceClientState :=
  { pc := false, dc := none, status := .idle, sent := [] }

/-- connect(clientSecret): observable transitions of the async method, with
the SDP exchange outcome as a parameter.  createDataChannel yields a channel
in readyState "connecting"; after setRemoteDescription succeeds the method
sets status "connected" and resolves, without waiting for the channel to
open. -/
def connect (s : VoiceClientState) (sdpOk : Bool) : VoiceClientState :=
  if s.pc then s
  else
    let s := { s with status := .connecting, pc := true, dc := some .connecting }
    if !sdpOk then { s with status := .error }
    else { s with status := .connected }

/-- sendEvent(evt): writes to the channel only when its readyState is open;
otherwise it returns immediately and the event goes nowhere. -/
def sendEvent (s : VoiceClientState) (evt : String) : VoiceClientState :=
  if s.dc == some .opened then { s with sent := s.sent ++ [evt] }
  else s

/-- The browser fires the onopen event of the data channel; the source
handler only logs, so the sole state change is the new readyState. -/
def dcOpen (s : VoiceClientState) : VoiceClientState :=
  match s.dc with
  | some .connecting => { s with dc := some .opened }
  | _ => s

def disconnect (s : VoiceClientState) : VoiceClientState :=
  { s with dc := none, pc := false, status := .idle }

/-! ## Helper lemmas -/

theorem contains_eq_false_of_ne (l : List String) (x : String)
    (h : ∀ t ∈ l, t ≠ x) : l.contains x = false := by
  induction l with
  | nil => rfl
  | cons a t ih =>
    simp only [List.contains_cons, Bool.or_eq_false_iff]
    refine ⟨?_, ih fun t ht => h t (by simp [ht])⟩
    have hax : a ≠ x := h a (by simp)
    simp only [beq_eq_false_iff_ne, ne_eq]
    exact fun hx => hax hx.symm

/-! ## Claim theorems -/

/-- C1: for every screen s and every mutation m (including a mutation whose
kind is not one of the handled variants), applyMutation s m is a total pure
function of its arguments (it always yields a result and, being pure, cannot
modify s), and when the kind is unrecognized the result equals s — a no-op,
not an error. -/
theorem applyMutation_total_unknown_noop (s : ScreenDescription)
    (m : ScreenMutation) :
    (∃ r, applyMutation s m = r) ∧
      (∀ k, m = .unknownKind k → applyMutation s m = s) := by
  refine ⟨⟨applyMutation s m, rfl⟩, ?_⟩
  rintro k rfl
  rfl

theorem applyMutation_total_unknown_noop_witness :
    applyMutation homeScreen (.unknownKind "HIGHLIGHT") = homeScreen :=
  (applyMutation_total_unknown_noop homeScreen
    (.unknownKind "HIGHLIGHT")).2 "HIGHLIGHT" rfl

/-- C10: applyMutation always returns a screen whose screenId and layout
equal those of the input screen; only the widgets can differ. -/
theorem applyMutation_preserves_screenId_layout (s : ScreenDescription)
    (m : ScreenMutation) :
    (applyMutation s m).screenId = s.screenId ∧
      (applyMutation s m).layout = s.layout := by
  cases m <;>
    simp [applyMutation, addTag, removeTag, addSkill, changeLevel,
      addTimelineEntry, filterProjects]

/-- C2 counterexample: on a screen whose tag list already holds "X", adding
"x" (the membership test is case-sensitive, so "x" is appended) and then
removing "x" (removal is case-insensitive) deletes the original "X" as well,
so the round-trip does not restore the original tag list. -/
theorem addRemoveTag_roundtrip_cex :
    tagLists
      (applyMutation
        (applyMutation
          { screenId := "s", layout := .column, widgets := [.tag_list none ["X"]] }
          (.ADD_TAG "x"))
        (.REMOVE_TAG "x")) ≠
      tagLists
        { screenId := "s", layout := .column, widgets := [.tag_list none ["X"]] } := by
  decide

/-- C2 amended: whenever no tag already present on s equals x up to case,
applying ADD_TAG x and then REMOVE_TAG x restores s exactly (hence its tag
lists), independent of the case of x. -/
theorem addRemoveTag_roundtrip_of_absent (s : ScreenDescription) (x : String)
    (h : ∀ ts ∈ tagLists s, ∀ t ∈ ts, jsToLower t ≠ jsToLower x) :
    applyMutation (applyMutation s (.ADD_TAG x)) (.REMOVE_TAG x) = s := by
  show removeTag (addTag s x) x = s
  unfold addTag removeTag
  simp only [List.map_map]
  have hmap : s.widgets.map (removeTagWidget x ∘ addTagWidget x) = s.widgets := by
    rw [List.map_congr_left (g := id) ?_, List.map_id]
    intro w hw
    cases w with
    | tag_list label tags =>
      have hts : ∀ t ∈ tags, jsToLower t ≠ jsToLower x := by
        refine h tags ?_
        simp only [tagLists, List.mem_filterMap]
        exact ⟨.tag_list label tags, hw, rfl⟩
      have hcont : tags.contains x = false := by
        refine contains_eq_false_of_ne tags x fun t ht he => ?_
        exact hts t ht (he ▸ rfl)
      simp only [id, Function.comp, addTagWidget, hcont, if_false,
        Bool.false_eq_true, removeTagWidget]
      congr 1
      rw [List.filter_append]
      have h1 : (tags.filter fun t => !(jsToLower t == jsToLower x)) = tags := by
        refine List.filter_eq_self.mpr fun t ht => ?_
        simp only [Bool.not_eq_eq_eq_not, Bool.not_true, beq_eq_false_iff_ne, ne_eq]
        exact hts t ht
      have h2 : ([x].filter fun t => !(jsToLower t == jsToLower x)) = [] := by
        simp
      rw [h1, h2, List.append_nil]
    | text variant content => rfl
    | project_list projects => rfl
    | button_row buttons => rfl
    | info_card title body => rfl
    | timeline title entries => rfl
    | skill_matrix title rows => rfl
  rw [hmap]

theorem addRemoveTag_roundtrip_witness :
    applyMutation (applyMutation homeScreen (.ADD_TAG "java")) (.REMOVE_TAG "java") =
      homeScreen :=
  addRemoveTag_roundtrip_of_absent homeScreen "java" (by decide)

theorem nonempty_of_langsel (input : String)
    (h : isLangSelText (normText input) = true) :
    (normText input == "") = false := by
  cases he : normText input == "" with
  | true =>
    exfalso
    rw [eq_of_beq he] at h
    exact absurd h (by decide)
  | false => rfl

/-- C6: parseIntent classifies by the fixed precedence order
language-selection > explicit language-set > CV > loop/walkthrough >
go-back > tech-filtered show-projects > something-else/next > UNKNOWN, an
earlier rule winning even when the keywords of later rules are also present
(each conjunct assumes only that the earlier rules did not match, nothing
about later ones); and the five concrete examples classify as specified. -/
theorem parseIntent_precedence_and_examples :
    (∀ input, isLangSelText (normText input) = true →
        parseIntent input = .SHOW_LANGUAGE_SELECTION) ∧
    (∀ input, (normText input == "") = false →
        isLangSelText (normText input) = false →
        isSetEnText (normText input) = true →
        parseIntent input = .SET_LANGUAGE_EN) ∧
    (∀ input, (normText input == "") = false →
        isLangSelText (normText input) = false →
        isSetEnText (normText input) = false →
        isSetDeText (normText input) = true →
        parseIntent input = .SET_LANGUAGE_DE) ∧
    (∀ input, (normText input == "") = false →
        isLangSelText (normText input) = false →
        isSetEnText (normText input) = false →
        isSetDeText (normText input) = false →
        isCvText (normText input) = true →
        parseIntent input = .SHOW_CV) ∧
    (∀ input, (normText input == "") = false →
        isLangSelText (normText input) = false →
        isSetEnText (normText input) = false →
        isSetDeText (normText input) = false →
        isCvText (normText input) = false →
        isLoopText (normText input) = true →
        parseIntent input = .LOOP_TIMELINE) ∧
    (∀ input, (normText input == "") = false →
        isLangSelText (normText input) = false →
        isSetEnText (normText input) = false →
        isSetDeText (normText input) = false →
        isCvText (normText input) = false →
        isLoopText (normText input) = false →
        isGoBackText (normText input) = true →
        parseIntent input = .GO_BACK) ∧
    (∀ input, (normText input == "") = false →
        isLangSelText (normText input) = false →
        isSetEnText (normText input) = false →
        isSetDeText (normText input) = false →
        isCvText (normText input) = false →
        isLoopText (normText input) = false →
        isGoBackText (normText input) = false →
        (mentionsProjectsText (normText input) ||
          (soundsLikeShowText (normText input) &&
            (detectTech (normText input)).isSome)) = true →
        parseIntent input = .SHOW_PROJECTS (detectTech (normText input))) ∧
    (∀ input, (normText input == "") = false →
        isLangSelText (normText input) = false →
        isSetEnText (normText input) = false →
        isSetDeText (normText input) = false →
        isCvText (normText input) = false →
        isLoopText (normText input) = false →
        isGoBackText (normText input) = false →
        (mentionsProjectsText (normText input) ||
          (soundsLikeShowText (normText input) &&
            (detectTech (normText input)).isSome)) = false →
        isSomethingElseText (normText input) = true →
        parseIntent input = .SHOW_ANY_PROJECTS) ∧
    (∀ input, (normText input == "") = false →
        isLangSelText (normText input) = false →
        isSetEnText (normText input) = false →
        isSetDeText (normText input) = false →
        isCvText (normText input) = false →
        isLoopText (normText input) = false →
        isGoBackText (normText input) = false →
        (mentionsProjectsText (normText input) ||
          (soundsLikeShowText (normText input) &&
            (detectTech (normText input)).isSome)) = false →
        isSomethingElseText (normText input) = false →
        parseIntent input = .UNKNOWN (some "no match")) ∧
    parseIntent "" = .UNKNOWN (some "empty") ∧
    parseIntent "cv" = .SHOW_CV ∧
    parseIntent "show me java projects" = .SHOW_PROJECTS (some "java") ∧
    parseIntent "go back" = .GO_BACK ∧
    parseIntent "loop the timeline" = .LOOP_TIMELINE := by
  refine ⟨?_, ?_, ?_, ?_, ?_, ?_, ?_, ?_, ?_, by decide, by decide, by decide,
    by decide, by decide⟩
  · intro input h1
    have h0 := nonempty_of_langsel input h1
    simp [parseIntent, h0, h1]
  · intro input h0 h1 h2
    simp [parseIntent, h0, h1, h2]
  · intro input h0 h1 h2 h3
    simp [parseIntent, h0, h1, h2, h3]
  · intro input h0 h1 h2 h3 h4
    simp [parseIntent, h0, h1, h2, h3, h4]
  · intro input h0 h1 h2 h3 h4 h5
    simp [parseIntent, h0, h1, h2, h3, h4, h5]
  · intro input h0 h1 h2 h3 h4 h5 h6
    simp [parseIntent, h0, h1, h2, h3, h4, h5, h6]
  · intro input h0 h1 h2 h3 h4 h5 h6 h7
    simp [parseIntent, h0, h1, h2, h3, h4, h5, h6, h7]
  · intro input h0 h1 h2 h3 h4 h5 h6 h7 h8
    simp [parseIntent, h0, h1, h2, h3, h4, h5, h6, h7, h8]
  · intro input h0 h1 h2 h3 h4 h5 h6 h7 h8
    simp [parseIntent, h0, h1, h2, h3, h4, h5, h6, h7, h8]

/-- C6 witness: the first rule wins on a text that also carries a later
rule's keyword ("next"), and the show-projects rule fires at a concrete
input with all earlier rules discharged. -/
theorem parseIntent_precedence_witness :
    parseIntent "language next" = .SHOW_LANGUAGE_SELECTION ∧
    parseIntent "show me firebase work" = .SHOW_PROJECTS (some "firebase") :=
  ⟨parseIntent_precedence_and_examples.1 "language next" (by decide),
    by
      have h := parseIntent_precedence_and_examples.2.2.2.2.2.2.1
        "show me firebase work" (by decide) (by decide) (by decide) (by decide)
        (by decide) (by decide) (by decide) (by decide)
      simpa using h⟩

theorem loadSession_snd (now : Int) (store : SessionStorage) :
    (loadSession now store).2 = saveSession (loadSession now store).1 := by
  match store with
  | none => rfl
  | some none => rfl
  | some (some stored) => rfl

theorem loadSession_visits_nonneg (now : Int) (store : SessionStorage) :
    0 ≤ (loadSession now store).1.visits := by
  match store with
  | none => simp [loadSession, freshSession]
  | some none => simp [loadSession, freshSession]
  | some (some stored) =>
    simp only [loadSession]
    rcases stored.visits with _ | v
    · simp
    · simp only []
      split <;> omega

theorem loadSession_of_saved (ctx : SessionContext) (now : Int)
    (h : 0 ≤ ctx.visits) :
    (loadSession now (saveSession ctx)).1 =
      { ctx with visits := ctx.visits + 1, lastVisit := now } := by
  simp only [loadSession, saveSession, storedOf, Option.getD_some, h, if_pos]
  cases hu : ctx.uiLanguage <;> simp [langString]

/-- C8: for every persisted session state (absent, corrupt, or any parsed
blob) and any two load times, the second of two consecutive loads returns a
visits count exactly one greater than the first, with screensViewed and
personaHints equal to those the first load returned. -/
theorem loadSession_twice_increments (store : SessionStorage) (now1 now2 : Int) :
    (loadSession now2 (loadSession now1 store).2).1.visits =
        (loadSession now1 store).1.visits + 1 ∧
      (loadSession now2 (loadSession now1 store).2).1.screensViewed =
        (loadSession now1 store).1.screensViewed ∧
      (loadSession now2 (loadSession now1 store).2).1.personaHints =
        (loadSession now1 store).1.personaHints := by
  rw [loadSession_snd,
    loadSession_of_saved _ _ (loadSession_visits_nonneg now1 store)]
  exact ⟨rfl, rfl, rfl⟩

/-- C4 counterexample: after connect resolves (with a successful SDP
exchange) the data channel is still in readyState "connecting", three
sendEvent calls made before the channel opens are silently dropped, and
once the channel opens nothing was delivered — contradicting the claim that
exactly those three events are delivered in order, and contradicting the
claim that connect resolves only once the data channel is open. -/
theorem sendEvent_before_open_dropped_cex :
    (dcOpen (sendEvent (sendEvent (sendEvent
        (connect initialVoiceClient true) "e1") "e2") "e3")).sent ≠
        ["e1", "e2", "e3"] ∧
      (dcOpen (sendEvent (sendEvent (sendEvent
        (connect initialVoiceClient true) "e1") "e2") "e3")).sent = [] ∧
      (connect initialVoiceClient true).status = .connected ∧
      (connect initialVoiceClient true).dc = some .connecting := by
  decide

/-- C4 amended: events sent while the data channel is not open are silently
dropped (sendEvent is a no-op, nothing is queued), events sent while it is
open are delivered immediately in call order, and connect resolves with
status connected as soon as the SDP answer is applied, while the freshly
created data channel is still in readyState "connecting". -/
theorem sendEvent_drop_or_deliver (s : VoiceClientState) (evt : String) :
    (s.dc ≠ some .opened → sendEvent s evt = s) ∧
      (s.dc = some .opened → (sendEvent s evt).sent = s.sent ++ [evt]) ∧
      (connect initialVoiceClient true).status = .connected ∧
      (connect initialVoiceClient true).dc = some .connecting := by
  refine ⟨?_, ?_, by decide, by decide⟩
  · intro h
    have hb : (s.dc == some .opened) = false := by
      simpa using h
    simp [sendEvent, hb]
  · intro h
    simp [sendEvent, h]

def vcBeforeOpen : VoiceClientState :=
  { pc := true, dc := some .connecting, status := .connected, sent := [] }

def vcOpened : VoiceClientState :=
  { pc := true, dc := some .opened, status := .connected, sent := ["first"] }

theorem sendEvent_drop_or_deliver_witness :
    sendEvent vcBeforeOpen "evt" = vcBeforeOpen ∧
      (sendEvent vcOpened "evt").sent = ["first", "evt"] :=
  ⟨(sendEvent_drop_or_deliver vcBeforeOpen "evt").1 (by decide),
   (sendEvent_drop_or_deliver vcOpened "evt").2.1 rfl⟩

theorem loopSched_idle_preserved (s : LoopSchedState) (e : LoopEvent)
    (hlm : s.loopMode = none) (ht : s.timer = none)
    (hstart : ∀ ids, e ≠ .startLoop ids) :
    (loopStep s e).loopMode = none ∧ (loopStep s e).timer = none ∧
      (loopStep s e).narrated = s.narrated := by
  cases e with
  | startLoop ids => exact absurd rfl (hstart ids)
  | newCommand => simp [loopStep, runLoopEffect]
  | teardown => simp [loopStep]
  | tick h =>
    have hb : (s.timer == some h) = false := by simp [ht]
    simp [loopStep, hb, hlm, ht]

/-- True when no event in the trace starts a new loop. -/
def noLoopStart (es : List LoopEvent) : Bool :=
  es.all fun e =>
    match e with
    | .startLoop _ => false
    | _ => true

/-- C9: after a new command (which sets loopMode to null and whose effect
cleanup clears the pending advance timer), any further trace of stale timer
ticks, commands and teardowns — anything except starting a new loop — issues
no further narration call: stale timers never fire after cancellation. -/
theorem loop_cancel_no_stale_narration (s : LoopSchedState)
    (es : List LoopEvent) (hes : noLoopStart es = true) :
    (runLoopEvents (loopStep s .newCommand) es).narrated =
        (loopStep s .newCommand).narrated ∧
      (loopStep s .newCommand).timer = none ∧
      (loopStep s .newCommand).loopMode = none := by
  have hes' : ∀ e ∈ es, ∀ ids, e ≠ LoopEvent.startLoop ids := by
    intro e he ids hc
    subst hc
    have := List.all_eq_true.mp hes _ he
    simp at this
  have hcmd : (loopStep s .newCommand).loopMode = none ∧
      (loopStep s .newCommand).timer = none := by
    simp [loopStep, runLoopEffect]
  refine ⟨?_, hcmd.2, hcmd.1⟩
  have main : ∀ (es : List LoopEvent) (t : LoopSchedState),
      t.loopMode = none → t.timer = none →
      (∀ e ∈ es, ∀ ids, e ≠ LoopEvent.startLoop ids) →
      (runLoopEvents t es).narrated = t.narrated := by
    intro es
    induction es with
    | nil => intro t _ _ _; rfl
    | cons e rest ih =>
      intro t hlm ht hrest
      have hstep := loopSched_idle_preserved t e hlm ht (hrest e (by simp))
      have htail := ih (loopStep t e) hstep.1 hstep.2.1
        (fun e' he' => hrest e' (by simp [he']))
      calc (runLoopEvents t (e :: rest)).narrated
          = (runLoopEvents (loopStep t e) rest).narrated := rfl
        _ = (loopStep t e).narrated := htail
        _ = t.narrated := hstep.2.2
  exact main es (loopStep s .newCommand) hcmd.1 hcmd.2 hes'

theorem applyAvatarNarration_history (a : Option AvatarResponse) (st : AppState) :
    (applyAvatarNarration a st).1.history = st.history := by
  cases a with
  | none => rfl
  | some r =>
    by_cases hr : (r.narration == "") = true <;> simp [applyAvatarNarration, hr]

theorem applyAvatarFull_history (a : Option AvatarResponse) (st : AppState) :
    (applyAvatarFull a st).1.history = st.history := by
  have h1 := applyAvatarNarration_history a st
  unfold applyAvatarFull
  rcases hA : applyAvatarNarration a st with ⟨st1, ret⟩
  rw [hA] at h1
  cases a with
  | none => simpa using h1
  | some r =>
    rcases hft : r.focusTarget with _ | f
    · simp only [hft]
      simpa using h1
    · by_cases hf : (f == "") = true <;> simp only [hft, hf] <;>
        simp <;> simpa using h1

theorem localCompilerPath_history (st : AppState) (trimmed : String) :
    (localCompilerPath st trimmed).history = st.history ∨
      ∃ scr, (localCompilerPath st trimmed).history = st.history ++ [scr] := by
  unfold localCompilerPath
  rcases hd : decideFromText trimmed st.history with ⟨screen, sp⟩ | sp
  · right
    refine ⟨screen, ?_⟩
    rcases sp with _ | p
    · simp
    · by_cases hp : (p == "") = true <;> simp [hp]
  · left
    rfl

theorem projectsBranch_history (a : Option AvatarResponse) (st : AppState)
    (trimmed : String) (calls : List ExtCall) :
    (projectsBranch a st trimmed calls).1.history = st.history ∨
      ∃ scr, (projectsBranch a st trimmed calls).1.history = st.history ++ [scr] := by
  unfold projectsBranch
  rcases hd : decideFromText trimmed st.history with ⟨screen, sp⟩ | sp
  · right
    refine ⟨screen, ?_⟩
    rcases sp with _ | p
    · simpa [hd] using applyAvatarFull_history a _
    · by_cases hp : (p == "") = true <;>
        simpa [hd, hp] using applyAvatarFull_history a _
  · left
    by_cases hp : (sp == "") = true <;>
      simpa [hd, hp] using applyAvatarFull_history a _

theorem noTimelineBranch_history (a : Option AvatarResponse) (st : AppState)
    (trimmed : String) (calls : List ExtCall) :
    (noTimelineBranch a st trimmed calls).1.history = st.history := by
  unfold noTimelineBranch
  simpa using applyAvatarNarration_history a _

theorem loopTimelineBranch_history (a : Option AvatarResponse) (st : AppState)
    (trimmed : String) (calls : List ExtCall) :
    (loopTimelineBranch a st trimmed calls).1.history = st.history := by
  unfold loopTimelineBranch
  rcases hfind : (currentScreenOf st).widgets.find? (fun w =>
      match w with
      | .timeline _ _ => true
      | _ => false) with _ | w
  · simp only [hfind]
    exact noTimelineBranch_history a st trimmed calls
  · cases w <;> simp only [hfind] <;>
      try (exact noTimelineBranch_history a st trimmed calls)
    rename_i title entries
    by_cases hemp : entries.isEmpty = true
    · simp only [hemp, if_true]
      exact noTimelineBranch_history a st trimmed calls
    · simp only [hemp, if_false, Bool.false_eq_true]
      simpa using applyAvatarNarration_history a _

theorem defaultBranch_history (isProd : Bool) (o : BrainOutcome)
    (a : Option AvatarResponse) (st : AppState) (trimmed : String)
    (calls : List ExtCall) :
    (defaultBranch isProd o a st trimmed calls).1.history = st.history ∨
      ∃ scr, (defaultBranch isProd o a st trimmed calls).1.history =
        st.history ++ [scr] := by
  unfold defaultBranch
  by_cases hp : isProd = true
  · rcases hb : callBrain o with _ | brain
    · rcases localCompilerPath_history { st with avatarThinking := true } trimmed
        with hl | ⟨scr, hl⟩
      · left
        simpa [hp, hb, hl] using applyAvatarFull_history a _
      · right
        refine ⟨scr, ?_⟩
        have := applyAvatarFull_history a
          { localCompilerPath { st with avatarThinking := true } trimmed with
              chatInput := "" }
        simp only [hp, hb, Bool.not_true, if_false, ite_false, Bool.false_eq_true]
        simpa [this] using hl
    · by_cases hm : brain.mutations.isEmpty = true <;>
        by_cases hsp : (brain.systemPrompt == "") = true
      · left
        simpa [hp, hb, hm, hsp] using applyAvatarFull_history a _
      · left
        simpa [hp, hb, hm, hsp] using applyAvatarFull_history a _
      · right
        exact ⟨_, by simpa [hp, hb, hm, hsp] using applyAvatarFull_history a _⟩
      · right
        exact ⟨_, by simpa [hp, hb, hm, hsp] using applyAvatarFull_history a _⟩
  · rcases localCompilerPath_history { st with avatarThinking := true } trimmed
      with hl | ⟨scr, hl⟩
    · left
      simpa [hp, hl] using applyAvatarFull_history a _
    · right
      refine ⟨scr, ?_⟩
      have := applyAvatarFull_history a
        { localCompilerPath { st with avatarThinking := true } trimmed with
            chatInput := "" }
      simp only [hp, Bool.not_true, if_false, ite_false, Bool.false_eq_true]
      simpa [this] using hl

theorem decideFromText_show_projects (t : String) (H : List ScreenDescription)
    (tech : Option String) (h : parseIntent t = .SHOW_PROJECTS tech) :
    decideFromText t H =
      .push
        (if tech == some "java" then javaScreen
         else if tech == some "backend" || tech == some "firebase" then backendScreen
         else homeScreen)
        (some "View updated. You can refine it again.") := by
  simp [decideFromText, h]

theorem decideFromText_show_any (t : String) (H : List ScreenDescription)
    (h : parseIntent t = .SHOW_ANY_PROJECTS) :
    decideFromText t H =
      .push backendScreen (some "Here is another example from the portfolio.") := by
  simp [decideFromText, h]

theorem decideFromText_unknown (t : String) (H : List ScreenDescription)
    (r : Option String) (h : parseIntent t = .UNKNOWN r) :
    decideFromText t H = .noop unknownHelpMsg := by
  simp [decideFromText, h]

/-- Every run of handleCommand leaves the history unchanged, appends exactly
one screen, or (only when it had more than one entry) pops the last one. -/
theorem handleCommand_history (isProd : Bool) (o : BrainOutcome)
    (a : Option AvatarResponse) (now : Int) (st : AppState) (text : String) :
    (handleCommand isProd o a now st text).1.history = st.history ∨
      (∃ scr, (handleCommand isProd o a now st text).1.history =
        st.history ++ [scr]) ∨
      (1 < st.history.length ∧
        (handleCommand isProd o a now st text).1.history =
          st.history.dropLast) := by
  by_cases hne : (jsTrim text == "") = true
  · exact Or.inl (by simp [handleCommand, hne])
  by_cases hstop : isStopPhrase (jsTrim text) = true
  · refine Or.inl ?_
    by_cases h1 : st.hasActivatedUI <;>
      by_cases hv : st.mode = InteractionMode.voice <;>
        by_cases hc : st.voiceConnected = true <;>
          by_cases hs : st.assistantSpeaking = true <;>
            simp [handleCommand, hne, h1, hv, hc, hs, hstop]
  by_cases h1 : st.hasActivatedUI <;>
    by_cases hcv : (st.mode == InteractionMode.voice && st.voiceConnected &&
      st.assistantSpeaking) = true
  all_goals
    rcases hint : parseIntent (jsTrim text) with tech | _ | _ | _ | _ | _ | _ | _ | reason
  -- language intents: history untouched
  all_goals
    try (first | (refine Or.inl ?_
                  simp [handleCommand, hne, h1, hcv, hstop, hint]
                  done))
  -- LOOP_TIMELINE: history untouched whatever the timeline lookup yields
  all_goals
    try (first | (refine Or.inl ?_
                  simp [handleCommand, hne, h1, hcv, hstop, hint,
                    loopTimelineBranch_history]
                  done))
  -- GO_BACK: pop only when more than one entry
  all_goals
    try (by_cases hl : 1 < st.history.length <;>
      first
        | (refine Or.inr (Or.inr ⟨hl, ?_⟩)
           simp [handleCommand, hne, h1, hcv, hstop, hint, hl,
             applyAvatarFull_history]
           done)
        | (refine Or.inl ?_
           simp [handleCommand, hne, h1, hcv, hstop, hint, hl,
             applyAvatarFull_history]
           done))
  -- SHOW_CV: push the CV screen
  all_goals
    try (first | (refine Or.inr (Or.inl ⟨cvScreen, ?_⟩)
                  simp [handleCommand, hne, h1, hcv, hstop, hint,
                    applyAvatarFull_history]
                  done))
  -- SHOW_PROJECTS: push the screen the local rule engine selects
  all_goals
    try (first | (refine Or.inr (Or.inl
                    ⟨(if tech == some "java" then javaScreen
                      else if tech == some "backend" || tech == some "firebase" then
                        backendScreen
                      else homeScreen), ?_⟩)
                  simp [handleCommand, hne, h1, hcv, hstop, hint, projectsBranch,
                    decideFromText_show_projects _ _ _ hint, applyAvatarFull_history]
                  done))
  -- SHOW_ANY_PROJECTS: push the rotation screen
  all_goals
    try (first | (refine Or.inr (Or.inl ⟨backendScreen, ?_⟩)
                  simp [handleCommand, hne, h1, hcv, hstop, hint, projectsBranch,
                    decideFromText_show_any _ _ hint, applyAvatarFull_history]
                  done))
  -- UNKNOWN: local rule path is a noop (clarification), brain path may push
  all_goals (
    simp only [handleCommand]
    simp [hne, h1, hcv, hstop, hint]
    exact (defaultBranch_history _ _ _ _ _ _).elim
      (fun hh => Or.inl hh) (fun hex => Or.inr (Or.inl hex)))

/-- C7: the dispatcher starts from the one-element history [homeScreen] and
every handleCommand run preserves the invariant that the history has length
at least 1: every branch either leaves the history unchanged or appends one
screen, except GO_BACK which pops only when more than one element is
present; on a length-1 history a GO_BACK leaves it unchanged. -/
theorem history_length_invariant (isProd : Bool) (o : BrainOutcome)
    (a : Option AvatarResponse) (now : Int) (st : AppState) (text : String)
    (h : 1 ≤ st.history.length) :
    1 ≤ (handleCommand isProd o a now st text).1.history.length ∧
      initialHistory.length = 1 ∧
      (parseIntent (jsTrim text) = .GO_BACK → st.history.length = 1 →
        (handleCommand isProd o a now st text).1.history = st.history) := by
  refine ⟨?_, rfl, ?_⟩
  · rcases handleCommand_history isProd o a now st text with hh | ⟨scr, hh⟩ | ⟨hlt, hh⟩
    · rw [hh]
      exact h
    · rw [hh]
      simp
    · rw [hh, List.length_dropLast]
      omega
  · intro hGB hlen
    by_cases hne : (jsTrim text == "") = true
    · simp [handleCommand, hne]
    by_cases hstop : isStopPhrase (jsTrim text) = true
    · by_cases h1 : st.hasActivatedUI <;>
        by_cases hv : st.mode = InteractionMode.voice <;>
          by_cases hc : st.voiceConnected = true <;>
            by_cases hs : st.assistantSpeaking = true <;>
              simp [handleCommand, hne, h1, hv, hc, hs, hstop]
    have hl : ¬ 1 < st.history.length := by omega
    by_cases h1 : st.hasActivatedUI <;>
      by_cases hcv : (st.mode == InteractionMode.voice && st.voiceConnected &&
        st.assistantSpeaking) = true <;>
        simp [handleCommand, hne, h1, hcv, hstop, hGB, hl, applyAvatarFull_history]

theorem history_length_invariant_witness :
    1 ≤ (handleCommand true .networkError none 0
        (initialAppState (freshSession 0)) "go back").1.history.length ∧
      (handleCommand true .networkError none 0
        (initialAppState (freshSession 0)) "go back").1.history =
        (initialAppState (freshSession 0)).history := by
  have h := history_length_invariant true .networkError none 0
    (initialAppState (freshSession 0)) "go back" (by decide)
  exact ⟨h.1, h.2.2 (by decide) (by decide)⟩

/-- C3: for every input whose trimmed text is a stop phrase (the check
itself lowercases, so matching is case- and whitespace-insensitive), the
command handler clears the loop state, clears the pending narration and the
thinking flag, requests voice-output cancellation when the voice channel is
active, and returns null without issuing any compiler or narration call —
even while a loop is active (st is arbitrary, in particular its loopMode). -/
theorem stopPhrase_preempts (isProd : Bool) (o : BrainOutcome)
    (avatar : Option AvatarResponse) (now : Int) (st : AppState) (text : String)
    (hstop : isStopPhrase (jsTrim text) = true) :
    (handleCommand isProd o avatar now st text).1.loopMode = none ∧
      (handleCommand isProd o avatar now st text).1.avatarNarration = none ∧
      (handleCommand isProd o avatar now st text).1.avatarThinking = false ∧
      (handleCommand isProd o avatar now st text).1.systemPrompt = "Stopped." ∧
      (handleCommand isProd o avatar now st text).2.2 = none ∧
      (∀ t, ExtCall.brainCall t ∉ (handleCommand isProd o avatar now st text).2.1) ∧
      (∀ t, ExtCall.avatarCall t ∉ (handleCommand isProd o avatar now st text).2.1) ∧
      (st.mode = .voice → st.voiceConnected = true →
        ExtCall.cancelVoice ∈ (handleCommand isProd o avatar now st text).2.1) := by
  have hne : (jsTrim text == "") = false := by
    cases he : jsTrim text == "" with
    | true =>
      exfalso
      rw [eq_of_beq he] at hstop
      exact absurd hstop (by decide)
    | false => rfl
  by_cases h1 : st.hasActivatedUI <;>
    by_cases hv : st.mode = InteractionMode.voice <;>
      by_cases hc : st.voiceConnected = true <;>
        by_cases hs : st.assistantSpeaking = true <;>
          simp [handleCommand, hne, hstop, h1, hv, hc, hs]

theorem stopPhrase_preempts_witness :
    (handleCommand true .networkError none 0
        { initialAppState (freshSession 0) with
            mode := .voice, voiceConnected := true, assistantSpeaking := true,
            loopMode := some { ids := ["a", "b", "c"], index := 1 } }
        "  Stop  ").1.loopMode = none ∧
      ExtCall.cancelVoice ∈
        (handleCommand true .networkError none 0
          { initialAppState (freshSession 0) with
              mode := .voice, voiceConnected := true, assistantSpeaking := true,
              loopMode := some { ids := ["a", "b", "c"], index := 1 } }
          "  Stop  ").2.1 := by
  have h := stopPhrase_preempts true .networkError none 0
    { initialAppState (freshSession 0) with
        mode := .voice, voiceConnected := true, assistantSpeaking := true,
        loopMode := some { ids := ["a", "b", "c"], index := 1 } }
    "  Stop  " (by decide)
  exact ⟨h.1, h.2.2.2.2.2.2.2 rfl rfl⟩

theorem defaultBranch_callBrain_none (o oDev : BrainOutcome)
    (a : Option AvatarResponse) (st : AppState) (trimmed : String)
    (calls calls2 : List ExtCall) (h : callBrain o = none) :
    (defaultBranch true o a st trimmed calls).1 =
        (defaultBranch false oDev a st trimmed calls2).1 ∧
      (defaultBranch true o a st trimmed calls).2.2 =
        (defaultBranch false oDev a st trimmed calls2).2.2 := by
  unfold defaultBranch
  simp [h]

/-- C5 counterexample: a 2xx compiler response missing a mutations array is
not treated as total failure.  On an UNKNOWN-intent input the dispatcher
accepts it as a successful response with zero mutations and shows its
systemPrompt, whereas with the compiler absent the local rule engine would
set the clarification prompt — the two UI states differ, refuting the claim
that such a response falls back to the local rule engine. -/
theorem brain_malformed_not_fallback_cex :
    (handleCommand true
        (.ok { mutations := none, systemPrompt := some "Compiler says hi" })
        none 0 (initialAppState (freshSession 0)) "hello there").1.systemPrompt ≠
      (handleCommand false .networkError none 0
        (initialAppState (freshSession 0)) "hello there").1.systemPrompt := by
  decide

/-- C5 amended: a network failure or a non-2xx status makes callBrain return
null and the dispatcher then runs exactly the local rule path, yielding the
same UI state and returned narration as when the compiler is absent (dev
mode) — with no exception escaping, since every outcome is handled; but a
2xx response missing a mutations array is normalised to a successful
response with an empty mutations list (screen unchanged, compiler
systemPrompt shown), not treated as total failure. -/
theorem brain_failure_fallback_amended :
    (∀ (o oDev : BrainOutcome) (a : Option AvatarResponse) (now : Int)
        (st : AppState) (text : String), callBrain o = none →
      (handleCommand true o a now st text).1 =
          (handleCommand false oDev a now st text).1 ∧
        (handleCommand true o a now st text).2.2 =
          (handleCommand false oDev a now st text).2.2) ∧
    callBrain .networkError = none ∧
    (∀ status, callBrain (.httpError status) = none) ∧
    (∀ body : BrainBody, body.mutations = none →
      callBrain (.ok body) =
        some { mutations := [],
               systemPrompt := body.systemPrompt.getD "Interface updated by AI." }) := by
  refine ⟨?_, rfl, fun status => rfl, fun body hb => by simp [callBrain, hb]⟩
  intro o oDev a now st text hnull
  by_cases hne : (jsTrim text == "") = true
  · constructor <;> simp [handleCommand, hne]
  by_cases hstop : isStopPhrase (jsTrim text) = true
  · constructor <;>
      (by_cases h1 : st.hasActivatedUI <;>
        by_cases hv : st.mode = InteractionMode.voice <;>
          by_cases hc : st.voiceConnected = true <;>
            by_cases hs : st.assistantSpeaking = true <;>
              simp [handleCommand, hne, h1, hv, hc, hs, hstop])
  by_cases h1 : st.hasActivatedUI <;>
    by_cases hcv : (st.mode == InteractionMode.voice && st.voiceConnected &&
      st.assistantSpeaking) = true
  all_goals
    rcases hint : parseIntent (jsTrim text) with tech | _ | _ | _ | _ | _ | _ | _ | reason
  all_goals
    try (first | (constructor <;>
                    (simp [handleCommand, hne, h1, hcv, hstop, hint]
                     done)))
  all_goals (
    simp only [handleCommand]
    simp [hne, h1, hcv, hstop, hint]
    exact defaultBranch_callBrain_none o oDev a _ _ _ _ hnull)

theorem brain_failure_fallback_amended_witness :
    (handleCommand true .networkError none 0
        (initialAppState (freshSession 0)) "hello there").1 =
      (handleCommand false .networkError none 0
        (initialAppState (freshSession 0)) "hello there").1 :=
  (brain_failure_fallback_amended.1 .networkError .networkError none 0
    (initialAppState (freshSession 0)) "hello there" rfl).1

/-- C9 witness: a loop over [a,b,c] is started, the first advance tick
fires (narrating a then b), a new command arrives, and then stale ticks are
replayed — no narration referencing b or c fires after the command. -/
theorem loop_cancel_no_stale_narration_witness :
    (runLoopEvents
        (loopStep
          (runLoopEvents initialLoopSched [.startLoop ["a", "b", "c"], .tick 0])
          .newCommand)
        [.tick 1, .tick 0, .tick 2]).narrated = ["a", "b"] :=
  (loop_cancel_no_stale_narration
    (runLoopEvents initialLoopSched [.startLoop ["a", "b", "c"], .tick 0])
    [.tick 1, .tick 0, .tick 2] (by decide)).1.trans (by decide)

end CDUI
